import Mathlib

/-!
Verification of the hotspot supply-demand dashboard core (files `aa.py`,
`updated.py`).  The embedding models the status classifier `get_status`,
the square-bounds helper `get_square_bounds`, the warehouse query's
aggregation pipeline (`point_assignments`, `bulk`, `hotspot_supply_hours`,
final metric assembly) of `fetch_data`, the previous-hour bucket of
`fetch_previous_hour_data`, and the trend computation of `create_map`.
Numeric quantities are rationals, timestamps are integer seconds; the
geodesic `ST_DISTANCE` primitive is an external parameter.
-/

namespace Maps

/-! ### Status classifier (`get_status` inside `create_map`) -/

/-- `has_supply = supply > 0.1`, the local flag computed at the top of
`get_status`. -/
abbrev has_supply (supply : ℚ) : Prop := supply > 1 / 10

/-- The body of `get_status`: the returned category string paired with a flag
recording whether the `st.warning` call for unrealistic supply hours executed
on this row.  Branches appear in the source's order. -/
def get_status_run (demand supply : ℚ) : String × Bool :=
  if demand ≥ 2 ∧ ¬ has_supply supply then ("High Demand No Supply", false)
  else if demand > 0 ∧ ¬ has_supply supply then ("Demand No Supply", false)
  else if demand > 0 ∧ has_supply supply then
    ("Demand With Supply", decide (supply > 24))
  else if has_supply supply ∧ demand ≤ 0 then ("Supply No Demand", false)
  else ("No Activity", false)

/-- The category `get_status` returns. -/
def get_status (demand supply : ℚ) : String :=
  (get_status_run demand supply).1

/-- Whether evaluating `get_status` raised the unrealistic-supply warning. -/
def get_status_warned (demand supply : ℚ) : Bool :=
  (get_status_run demand supply).2

/-- The five-row first-match decision table of the specification (section 4.4),
written independently of `get_status` for the refinement comparison. -/
def classify_spec (demand supply : ℚ) : String :=
  if demand ≥ 2 ∧ supply ≤ 1 / 10 then "High Demand No Supply"
  else if demand > 0 ∧ supply ≤ 1 / 10 then "Demand No Supply"
  else if demand > 0 ∧ supply > 1 / 10 then "Demand With Supply"
  else if demand ≤ 0 ∧ supply > 1 / 10 then "Supply No Demand"
  else "No Activity"

/-! ### Square bounds (`get_square_bounds`) -/

/-- Corner coordinates of the square drawn for a hotspot. -/
def get_square_bounds (lat lon side_length_meters : ℚ) : List (List ℚ) :=
  let meters_per_degree : ℚ := 111000
  let degree_delta := side_length_meters / 2 / meters_per_degree
  [[lat - degree_delta, lon - degree_delta],
   [lat + degree_delta, lon + degree_delta]]

/-! ### Theorems: classifier -/

/-- Claim C1: for every pair of rationals the classifier returns exactly one of
the five categories, equal to the specification's first-match table, and is a
total function of its two arguments. -/
theorem get_status_eq_spec_table (demand supply : ℚ) :
    get_status demand supply = classify_spec demand supply ∧
    (get_status demand supply = "High Demand No Supply" ∨
     get_status demand supply = "Demand No Supply" ∨
     get_status demand supply = "Demand With Supply" ∨
     get_status demand supply = "Supply No Demand" ∨
     get_status demand supply = "No Activity") := by
  constructor
  · unfold get_status get_status_run classify_spec has_supply
    split_ifs with h1 h2 h3 h4 h5 h6 h7 h8 <;> simp_all <;> try linarith
  · unfold get_status get_status_run
    split_ifs <;> simp

/-- Claim C6 counterexample: at demand 0 and supply 30 (supply hours above 24)
the code returns "Supply No Demand" without raising the data-quality warning,
so the warning is not raised regardless of demand. -/
theorem warning_skipped_at_zero_demand :
    get_status_run 0 30 = ("Supply No Demand", false) := by
  norm_num [get_status_run, has_supply]

/-- Claim C6 (amended): the unrealistic-supply warning is raised exactly when
demand > 0 and supply > 24 — i.e. only on rows classified "Demand With
Supply" — and computation continues, still returning that row's category. -/
theorem warning_iff_demand_pos_and_supply_gt_24 (demand supply : ℚ) :
    (get_status_warned demand supply = true ↔ 0 < demand ∧ 24 < supply) ∧
    (get_status_warned demand supply = true →
      get_status demand supply = "Demand With Supply") := by
  unfold get_status_warned get_status get_status_run has_supply
  split_ifs with h1 h2 h3 h4
  · exact ⟨by simp; intro hd; linarith [h1.2], by simp⟩
  · exact ⟨by simp; intro hd; linarith [h2.2], by simp⟩
  · exact ⟨by simp [h3.1], fun _ => rfl⟩
  · exact ⟨by simp; intro hd; linarith [h4.2], by simp⟩
  · constructor
    · simp
      intro hd
      have hs : ¬ (1 / 10 : ℚ) < supply := fun hs => h3 ⟨hd, hs⟩
      linarith
    · simp

/-- Witness for C6's amended theorem: demand 1 with supply 30 raises the
warning and still returns "Demand With Supply". -/
theorem warning_iff_demand_pos_and_supply_gt_24_w :
    get_status 1 30 = "Demand With Supply" :=
  (warning_iff_demand_pos_and_supply_gt_24 1 30).2
    (by norm_num [get_status_warned, get_status_run, has_supply])

/-! ### Theorems: square bounds -/

/-- Claim C10: `get_square_bounds` returns exactly the corners
`[lat − d, lon − d]` and `[lat + d, lon + d]` with `d = (s/2)/111000`; the
midpoint of the corners is the input center, and the box extends `d` degrees
on each side of the center in both coordinates. -/
theorem get_square_bounds_centered (lat lon s : ℚ) :
    get_square_bounds lat lon s =
      [[lat - s / 2 / 111000, lon - s / 2 / 111000],
       [lat + s / 2 / 111000, lon + s / 2 / 111000]] ∧
    ((lat - s / 2 / 111000) + (lat + s / 2 / 111000)) / 2 = lat ∧
    ((lon - s / 2 / 111000) + (lon + s / 2 / 111000)) / 2 = lon ∧
    (lat + s / 2 / 111000) - lat = s / 2 / 111000 ∧
    lat - (lat - s / 2 / 111000) = s / 2 / 111000 ∧
    (lon + s / 2 / 111000) - lon = s / 2 / 111000 ∧
    lon - (lon - s / 2 / 111000) = s / 2 / 111000 :=
  ⟨rfl, by ring, by ring, by ring, by ring, by ring, by ring⟩

/-! ### Supply rows and the final SELECT's hour sums

A row of the `hotspot_supply_hours` CTE: one `(location, is_on_delivery,
robot_id)` group with its summed hours.  The final SELECT left-joins these
rows to each hotspot by label and computes
`COALESCE(SUM(CASE WHEN is_on_delivery = FALSE THEN hours END), 0)`,
the symmetric TRUE sum, and `COALESCE(SUM(hours), 0)`. -/

structure SupplyRow where
  hotspot_label : String
  is_on_delivery : Bool
  robot_id : Nat
  hours : ℚ
deriving DecidableEq

/-- The supply rows joined to a given hotspot label. -/
def rows_for (supply : List SupplyRow) (label : String) : List SupplyRow :=
  supply.filter fun r => decide (r.hotspot_label = label)

/-- `COALESCE(SUM(CASE WHEN hs.is_on_delivery = FALSE THEN hs.hours END), 0)`. -/
def on_duty_not_on_delivery_hours (supply : List SupplyRow) (label : String) : ℚ :=
  (((rows_for supply label).filter fun r => decide (r.is_on_delivery = false)).map
    fun r => r.hours).sum

/-- `COALESCE(SUM(CASE WHEN hs.is_on_delivery = TRUE THEN hs.hours END), 0)`. -/
def on_duty_on_delivery_hours (supply : List SupplyRow) (label : String) : ℚ :=
  (((rows_for supply label).filter fun r => decide (r.is_on_delivery = true)).map
    fun r => r.hours).sum

/-- `COALESCE(SUM(hs.hours), 0)`. -/
def net_supply_hours (supply : List SupplyRow) (label : String) : ℚ :=
  ((rows_for supply label).map fun r => r.hours).sum

lemma sum_hours_filter_partition (l : List SupplyRow) :
    ((l.filter fun r => decide (r.is_on_delivery = false)).map (fun r => r.hours)).sum
      + ((l.filter fun r => decide (r.is_on_delivery = true)).map (fun r => r.hours)).sum
      = (l.map fun r => r.hours).sum := by
  induction l with
  | nil => simp
  | cons r t ih =>
    cases h : r.is_on_delivery <;> simp [List.filter_cons, h] at ih ⊢ <;> linarith

/-! ### Previous-hour bucket (`fetch_previous_hour_data`, updated.py) -/

/-- The `(prev_hour, prev_day_offset)` pair that `fetch_previous_hour_data`
passes on to `fetch_data`. -/
def fetch_previous_hour_bucket (hour day_offset : ℤ) : ℤ × ℤ :=
  let prev_hour := hour - 1
  if prev_hour < 0 then (23, day_offset - 1) else (prev_hour, day_offset)

/-! ### Metric records and the trend comparison (`create_map`, updated.py) -/

/-- One output record of `fetch_data`'s final SELECT. -/
structure HotspotMetric where
  hotspot_label : String
  predicted_demand : ℚ
  latitude : ℚ
  longitude : ℚ
  num_offers : Nat
  on_duty_not_on_delivery_hours : ℚ
  on_duty_on_delivery_hours : ℚ
  net_supply_hours : ℚ
  num_robots : Nat
deriving DecidableEq

/-- `prev_data[prev_data['hotspot_label'] == label]['predicted_demand'].iloc[0]
if len(...) > 0 else 0`: the previous hour's demand for a label, defaulting a
missing record to 0. -/
def prev_demand_for (prev_data : List HotspotMetric) (label : String) : ℚ :=
  match prev_data.filter (fun m => decide (m.hotspot_label = label)) with
  | [] => 0
  | m :: _ => m.predicted_demand

/-- The trend indicator computed per row: `"→"` overwritten to `"↑"` when
current demand exceeds the previous one and to `"↓"` when below. -/
def trend_arrow (cur prev : ℚ) : String :=
  if cur > prev then "↑" else if cur < prev then "↓" else "→"

/-! ### Theorems: supply-hour partition -/

/-- Claim C2: for every hotspot label the net supply hours equal exactly the
sum of the not-on-delivery and on-delivery partitions — each joined row's
hours land in exactly one of the two partition sums. -/
theorem net_supply_eq_partition_sum (supply : List SupplyRow) (label : String) :
    on_duty_not_on_delivery_hours supply label + on_duty_on_delivery_hours supply label
      = net_supply_hours supply label := by
  unfold on_duty_not_on_delivery_hours on_duty_on_delivery_hours net_supply_hours
  exact sum_hours_filter_partition (rows_for supply label)

/-! ### Theorems: previous-hour bucket -/

/-- Claim C8: the bucket fetched for the trend comparison is
`(hour − 1, day_offset)` when `1 ≤ hour ≤ 23`, and `(23, day_offset − 1)`
when `hour = 0`. -/
theorem previous_bucket_rolls_back (hour day_offset : ℤ) :
    (1 ≤ hour → hour ≤ 23 →
      fetch_previous_hour_bucket hour day_offset = (hour - 1, day_offset)) ∧
    (hour = 0 →
      fetch_previous_hour_bucket hour day_offset = (23, day_offset - 1)) := by
  unfold fetch_previous_hour_bucket
  constructor
  · intro h1 _
    rw [if_neg (by omega)]
  · intro h0
    subst h0
    rw [if_pos (by omega)]

/-- Witness for C8 at hour 5 and at hour 0. -/
theorem previous_bucket_rolls_back_w :
    fetch_previous_hour_bucket 5 0 = (4, 0) ∧
    fetch_previous_hour_bucket 0 0 = (23, -1) :=
  ⟨(previous_bucket_rolls_back 5 0).1 (by decide) (by decide),
   (previous_bucket_rolls_back 0 0).2 rfl⟩

/-! ### Theorems: trend comparison -/

/-- Claim C7 counterexample: a hotspot absent from the previous hour's metric
set with current demand 1/2 is marked "↑" (up), not "→" (flat), because the
missing previous demand defaults to 0 and 1/2 > 0. -/
theorem trend_up_when_previous_missing :
    trend_arrow (1 / 2) (prev_demand_for [] "A") = "↑" ∧
    trend_arrow (1 / 2) (prev_demand_for [] "A") ≠ "→" := by
  have h : trend_arrow (1 / 2) (prev_demand_for [] "A") = "↑" := by
    norm_num [trend_arrow, prev_demand_for]
  exact ⟨h, by rw [h]; decide⟩

/-- Claim C7 (amended): with the missing previous demand defaulted to 0, the
trend is "↑" exactly when current demand exceeds the (defaulted) previous
demand, "↓" exactly when below, and "→" exactly when equal; a label with no
record in the previous metric set gets previous demand 0 (so a positive
current demand yields "↑", not "→"). -/
theorem trend_arrow_spec (cur prev : ℚ) (prev_data : List HotspotMetric) (label : String) :
    (trend_arrow cur prev = "↑" ↔ prev < cur) ∧
    (trend_arrow cur prev = "↓" ↔ cur < prev) ∧
    (trend_arrow cur prev = "→" ↔ cur = prev) ∧
    (prev_data.filter (fun m => decide (m.hotspot_label = label)) = [] →
      prev_demand_for prev_data label = 0) := by
  refine ⟨?_, ?_, ?_, ?_⟩
  · unfold trend_arrow
    split_ifs with h1 h2 <;> simp_all
  · unfold trend_arrow
    split_ifs with h1 h2 <;> simp_all
    linarith
  · unfold trend_arrow
    split_ifs with h1 h2
    · refine ⟨fun he => absurd he (by decide), fun he => ?_⟩
      rw [he] at h1
      exact absurd h1 (lt_irrefl prev)
    · refine ⟨fun he => absurd he (by decide), fun he => ?_⟩
      rw [he] at h2
      exact absurd h2 (lt_irrefl prev)
    · exact ⟨fun _ => le_antisymm (not_lt.mp h1) (not_lt.mp h2), fun _ => rfl⟩
  · intro h
    simp [prev_demand_for, h]

/-- Witness for C7's amended theorem: current demand 1 with an empty previous
metric set trends "↑", and the missing lookup is 0. -/
theorem trend_arrow_spec_w :
    trend_arrow 1 0 = "↑" ∧ prev_demand_for [] "A" = 0 :=
  ⟨(trend_arrow_spec 1 0 [] "A").1.mpr (by norm_num),
   (trend_arrow_spec 1 0 [] "A").2.2.2 rfl⟩

/-! ### The interval engine (`bulk` CTE and the `hotspot_supply_hours` SELECT)

A row of `point_assignments`: one telemetry sample together with the hotspot
label it was assigned to.  `bulk` adds
`LEAD(time_pst) OVER (PARTITION BY robot_id ORDER BY time_pst)` and the final
grouped SELECT keeps rows `WHERE next_time_pst IS NOT NULL` and sums
`TIMESTAMP_DIFF(next_time_pst, time_pst, SECOND) / 3600.0`. -/

structure PointAssignment where
  robot_id : Nat
  time_pst : ℤ
  is_on_delivery : Bool
  location : String
deriving DecidableEq

/-- The `ORDER BY time_pst` ordering of the window partition. -/
def time_le (a b : PointAssignment) : Prop := a.time_pst ≤ b.time_pst

instance : DecidableRel time_le :=
  fun a b => inferInstanceAs (Decidable (a.time_pst ≤ b.time_pst))

instance : IsTotal PointAssignment time_le :=
  ⟨fun a b => Int.le_total a.time_pst b.time_pst⟩

instance : IsTrans PointAssignment time_le :=
  ⟨fun _ _ _ h1 h2 => le_trans h1 h2⟩

/-- The partition sorted ascending by timestamp, as the window frame sees it. -/
def sort_by_time (l : List PointAssignment) : List PointAssignment :=
  l.insertionSort time_le

/-- `LEAD(time_pst)` followed by `WHERE next_time_pst IS NOT NULL`: each row of
the ordered partition paired with its successor's timestamp; the last row,
whose LEAD is NULL, is dropped. -/
def lead_pairs : List PointAssignment → List (PointAssignment × ℤ)
  | [] => []
  | [_] => []
  | a :: b :: rest => (a, b.time_pst) :: lead_pairs (b :: rest)

/-- The surviving `bulk` rows of one robot's partition. -/
def bulk_rows (samples : List PointAssignment) (robot : Nat) :
    List (PointAssignment × ℤ) :=
  lead_pairs (sort_by_time (samples.filter fun s => decide (s.robot_id = robot)))

/-- `SUM(TIMESTAMP_DIFF(next_time_pst, time_pst, SECOND) / 3600.0)` for one
`(location, is_on_delivery, robot_id)` group of the `hotspot_supply_hours`
SELECT. -/
def robot_hours (samples : List PointAssignment) (robot : Nat)
    (label : String) (del : Bool) : ℚ :=
  (((bulk_rows samples robot).filter fun p =>
      decide (p.1.location = label) && decide (p.1.is_on_delivery = del)).map
    fun p => ((p.2 - p.1.time_pst : ℤ) : ℚ) / 3600).sum

lemma lead_pairs_eq_zip_tail : ∀ l : List PointAssignment,
    lead_pairs l = (l.zip l.tail).map fun p => (p.1, p.2.time_pst)
  | [] => rfl
  | [_] => rfl
  | a :: b :: rest => by
    rw [lead_pairs]
    simp [lead_pairs_eq_zip_tail (b :: rest)]

lemma lead_pairs_mono : ∀ {l : List PointAssignment}, List.Sorted time_le l →
    ∀ p ∈ lead_pairs l, p.1.time_pst ≤ p.2
  | [], _, p, hp => by simp [lead_pairs] at hp
  | [_], _, p, hp => by simp [lead_pairs] at hp
  | a :: b :: rest, hs, p, hp => by
    rw [lead_pairs] at hp
    rcases List.mem_cons.mp hp with h | h
    · subst h
      exact (List.sorted_cons.mp hs).1 b (List.mem_cons_self b rest)
    · exact lead_pairs_mono (List.sorted_cons.mp hs).2 p h

/-! ### Theorems: interval engine -/

/-- Claim C3: a duration row arises only from a sample paired with its
immediate successor in the same robot's time-ordered partition (the pairs are
exactly the consecutive pairs of the partition, so the last sample, having no
successor, yields no row), and a robot whose partition holds exactly one
sample contributes zero hours to every `(hotspot, state)` group. -/
theorem intervals_from_consecutive_samples_only :
    (∀ l : List PointAssignment,
      lead_pairs l = (l.zip l.tail).map fun p => (p.1, p.2.time_pst)) ∧
    (∀ (samples : List PointAssignment) (robot : Nat) (label : String) (del : Bool),
      (samples.filter fun s => decide (s.robot_id = robot)).length = 1 →
      robot_hours samples robot label del = 0) := by
  refine ⟨lead_pairs_eq_zip_tail, ?_⟩
  intro samples robot label del h1
  have hlen : (sort_by_time (samples.filter fun s => decide (s.robot_id = robot))).length = 1 := by
    rw [sort_by_time, List.length_insertionSort]
    exact h1
  obtain ⟨a, ha⟩ := List.length_eq_one.mp hlen
  unfold robot_hours bulk_rows
  rw [ha]
  rfl

/-- Witness for C3: one robot with a single sample contributes zero hours. -/
theorem intervals_from_consecutive_samples_only_w :
    robot_hours [⟨1, 0, false, "A"⟩] 1 "A" false = 0 :=
  intervals_from_consecutive_samples_only.2 [⟨1, 0, false, "A"⟩] 1 "A" false (by decide)

/-- Claim C9: every duration entering a supply-hour sum is non-negative: each
surviving `bulk` row pairs a sample with the timestamp of its successor in
ascending time order, so its timestamp difference is ≥ 0, and every
`(hotspot, state)` hour sum is therefore ≥ 0. -/
theorem bulk_durations_nonneg (samples : List PointAssignment) (robot : Nat) :
    (∀ p ∈ bulk_rows samples robot, p.1.time_pst ≤ p.2) ∧
    (∀ (label : String) (del : Bool), 0 ≤ robot_hours samples robot label del) := by
  have hmono : ∀ p ∈ bulk_rows samples robot, p.1.time_pst ≤ p.2 := by
    intro p hp
    exact lead_pairs_mono
      (List.sorted_insertionSort time_le
        (samples.filter fun s => decide (s.robot_id = robot))) p hp
  refine ⟨hmono, ?_⟩
  intro label del
  apply List.sum_nonneg
  intro x hx
  obtain ⟨p, hp, rfl⟩ := List.mem_map.mp hx
  have hmem : p ∈ bulk_rows samples robot := (List.mem_filter.mp hp).1
  have hd := hmono p hmem
  have : (0 : ℚ) ≤ ((p.2 - p.1.time_pst : ℤ) : ℚ) := by
    exact_mod_cast sub_nonneg.mpr hd
  positivity

/-- Witness for C9: a robot with samples at times 0 and 7 yields the single
duration row (sample at 0, next time 7), whose endpoints are ordered. -/
theorem bulk_durations_nonneg_w :
    ((⟨1, 0, false, "A"⟩ : PointAssignment), (7 : ℤ)).1.time_pst ≤
      ((⟨1, 0, false, "A"⟩ : PointAssignment), (7 : ℤ)).2 :=
  (bulk_durations_nonneg [⟨1, 0, false, "A"⟩, ⟨1, 7, false, "A"⟩] 1).1 _ (by decide)

/-! ### Metric assembly (the final SELECT of `fetch_data`)

The outer query drives from the `hotspots` CTE, left-joins the grouped
`hotspot_offers` rows (at most one per label) and the `hotspot_supply_hours`
rows by label, groups by the hotspot tuple, and orders by predicted demand
descending. -/

structure Hotspot where
  label : String
  longitude : ℚ
  latitude : ℚ
  predicted_demand : ℚ
deriving DecidableEq

/-- A row of the `hotspot_offers` CTE (grouped by label). -/
structure OfferRow where
  hotspot_label : String
  num_offers : Nat
deriving DecidableEq

/-- `COALESCE(ho.num_offers, 0)`: the left-joined offer count for a label,
zero when the grouped offers CTE has no row for it. -/
def lookup_offers (offers : List OfferRow) (label : String) : Nat :=
  match offers.filter (fun o => decide (o.hotspot_label = label)) with
  | [] => 0
  | o :: _ => o.num_offers

/-- `COUNT(DISTINCT hs.robot_id)` over the joined supply rows of a label. -/
def count_robots (supply : List SupplyRow) (label : String) : Nat :=
  (((rows_for supply label).map fun r => r.robot_id).dedup).length

/-- One output record of the final SELECT for one hotspot group. -/
def mk_metric (offers : List OfferRow) (supply : List SupplyRow) (h : Hotspot) :
    HotspotMetric where
  hotspot_label := h.label
  predicted_demand := h.predicted_demand
  latitude := h.latitude
  longitude := h.longitude
  num_offers := lookup_offers offers h.label
  on_duty_not_on_delivery_hours := on_duty_not_on_delivery_hours supply h.label
  on_duty_on_delivery_hours := on_duty_on_delivery_hours supply h.label
  net_supply_hours := net_supply_hours supply h.label
  num_robots := count_robots supply h.label

/-- `ORDER BY h.predicted_demand DESC`. -/
def demand_ge (a b : HotspotMetric) : Prop :=
  b.predicted_demand ≤ a.predicted_demand

instance : DecidableRel demand_ge :=
  fun a b => inferInstanceAs (Decidable (b.predicted_demand ≤ a.predicted_demand))

instance : IsTotal HotspotMetric demand_ge :=
  ⟨fun a b => le_total b.predicted_demand a.predicted_demand⟩

instance : IsTrans HotspotMetric demand_ge :=
  ⟨fun _ _ _ h1 h2 => le_trans h2 h1⟩

/-- The result set of `fetch_data`: one group per distinct hotspot tuple,
ordered by predicted demand descending. -/
def fetch_data_rows (hotspots : List Hotspot) (offers : List OfferRow)
    (supply : List SupplyRow) : List HotspotMetric :=
  ((hotspots.dedup).map (mk_metric offers supply)).insertionSort demand_ge

lemma filter_label_length_of_nodup :
    ∀ l : List Hotspot, (l.map fun h => h.label).Nodup → ∀ h ∈ l,
      (l.filter fun g => decide (g.label = h.label)).length = 1 := by
  intro l
  induction l with
  | nil => intro _ h hmem; exact absurd hmem (List.not_mem_nil h)
  | cons a t ih =>
    intro hnd h hmem
    rw [List.map_cons, List.nodup_cons] at hnd
    rcases List.mem_cons.mp hmem with rfl | hmem
    · have hempty : t.filter (fun g => decide (g.label = h.label)) = [] := by
        rw [List.filter_eq_nil_iff]
        intro g hg hglab
        rw [decide_eq_true_eq] at hglab
        exact hnd.1 (hglab ▸ List.mem_map_of_mem (fun x => x.label) hg)
      simp [List.filter_cons, hempty]
    · have hne : ¬ a.label = h.label := by
        intro he
        exact hnd.1 (he ▸ List.mem_map_of_mem (fun x => x.label) hmem)
      simp only [List.filter_cons, decide_eq_true_eq, if_neg hne]
      exact ih hnd.2 h hmem

/-! ### Theorems: metric assembly -/

/-- Claim C4: with catalog labels unique in the bucket, the assembled output
has exactly one record per hotspot label (no duplicates, no omissions), and a
record whose label matches no offer row or no supply row carries offer count
zero and supply-hour fields zero — never null. -/
theorem metrics_one_record_per_label
    (hotspots : List Hotspot) (offers : List OfferRow) (supply : List SupplyRow)
    (hnd : (hotspots.map fun h => h.label).Nodup) :
    (∀ h ∈ hotspots,
      ((fetch_data_rows hotspots offers supply).filter
        fun m => decide (m.hotspot_label = h.label)).length = 1) ∧
    (∀ m ∈ fetch_data_rows hotspots offers supply,
      (offers.filter (fun o => decide (o.hotspot_label = m.hotspot_label)) = [] →
        m.num_offers = 0) ∧
      (supply.filter (fun r => decide (r.hotspot_label = m.hotspot_label)) = [] →
        m.on_duty_not_on_delivery_hours = 0 ∧ m.on_duty_on_delivery_hours = 0 ∧
          m.net_supply_hours = 0)) := by
  have hdd : hotspots.dedup = hotspots :=
    List.dedup_eq_self.mpr (List.Nodup.of_map _ hnd)
  have hperm : List.Perm (fetch_data_rows hotspots offers supply)
      (hotspots.map (mk_metric offers supply)) := by
    unfold fetch_data_rows
    rw [hdd]
    exact List.perm_insertionSort demand_ge _
  constructor
  · intro h hmem
    have hfl := (hperm.filter fun m => decide (m.hotspot_label = h.label)).length_eq
    rw [hfl, List.filter_map]
    have : ((fun m => decide (m.hotspot_label = h.label)) ∘ mk_metric offers supply)
        = fun g => decide (g.label = h.label) := rfl
    rw [this, List.length_map]
    exact filter_label_length_of_nodup hotspots hnd h hmem
  · intro m hm
    have hm' : m ∈ hotspots.map (mk_metric offers supply) := hperm.mem_iff.mp hm
    obtain ⟨h, _, rfl⟩ := List.mem_map.mp hm'
    constructor
    · intro hoff
      simp only [mk_metric] at hoff
      show lookup_offers offers h.label = 0
      unfold lookup_offers
      rw [hoff]
    · intro hsup
      simp only [mk_metric] at hsup
      have hrows : rows_for supply h.label = [] := by
        unfold rows_for
        exact hsup
      refine ⟨?_, ?_, ?_⟩ <;>
        simp [mk_metric, on_duty_not_on_delivery_hours, on_duty_on_delivery_hours,
          net_supply_hours, hrows]

/-- Witness for C4: a one-hotspot catalog with no offer and no supply rows
yields exactly one record for its label. -/
theorem metrics_one_record_per_label_w :
    ((fetch_data_rows [⟨"A", 0, 0, 1⟩] [] []).filter
      fun m => decide (m.hotspot_label = "A")).length = 1 :=
  (metrics_one_record_per_label [⟨"A", 0, 0, 1⟩] [] [] (by decide)).1
    ⟨"A", 0, 0, 1⟩ (by decide)

/-! ### Spatial attribution (`point_assignments` CTE)

`point_assignments` CROSS JOINs the filtered rover rows with the bucket's
hotspots, keeps the pairs with `ST_DISTANCE(center, sample) <= 420`, and
groups by the five selected columns (a dedup).  `ST_DISTANCE` is an external
geodesic primitive, taken here as a parameter; coordinates are
`(longitude, latitude)` pairs. -/

structure RoverSample where
  robot_id : Nat
  time_pst : ℤ
  is_on_delivery : Bool
  geo_pose_longitude : ℚ
  geo_pose_latitude : ℚ
deriving DecidableEq

/-- The rows of `point_assignments` for a given distance primitive. -/
def point_assignments (st_distance : ℚ × ℚ → ℚ × ℚ → ℚ)
    (hotspots : List Hotspot) (rover_rows : List RoverSample) :
    List PointAssignment :=
  ((rover_rows.map fun r =>
      (hotspots.filter fun h =>
        decide (st_distance (h.longitude, h.latitude)
          (r.geo_pose_longitude, r.geo_pose_latitude) ≤ 420)).map
        fun h => (⟨r.robot_id, r.time_pst, r.is_on_delivery, h.label⟩ :
          PointAssignment)).flatten).dedup

/-- A plausible instantiation of the geodesic primitive on the concrete points
used below: coincident points are at distance 0, all other pairs far apart. -/
def same_point_distance (p q : ℚ × ℚ) : ℚ :=
  if p = q then 0 else 1000

/-! ### Theorems: spatial attribution -/

/-- Claim C5 counterexample: with two hotspots centered on the sample's own
coordinate (both within the 420 radius), the single sample is attributed to
both hotspots — two assignment rows, not at most one. -/
theorem sample_attributed_to_two_hotspots :
    (point_assignments same_point_distance
        [⟨"A", 0, 0, 1⟩, ⟨"B", 0, 0, 1⟩] [⟨1, 0, false, 0, 0⟩]).map
      (fun p => p.location) = ["A", "B"] ∧
    (point_assignments same_point_distance
        [⟨"A", 0, 0, 1⟩, ⟨"B", 0, 0, 1⟩] [⟨1, 0, false, 0, 0⟩]).length = 2 := by
  constructor <;> decide

/-- Claim C5 (amended): a sample is attributed to every hotspot whose center
is within distance 420 of it — possibly several — and a sample farther than
420 from every hotspot center is attributed to none and yields no assignment
row at all. -/
theorem attribution_membership (st_distance : ℚ × ℚ → ℚ × ℚ → ℚ)
    (hotspots : List Hotspot) (rover_rows : List RoverSample)
    (p : PointAssignment) (r : RoverSample) :
    (p ∈ point_assignments st_distance hotspots rover_rows ↔
      ∃ s ∈ rover_rows, ∃ h ∈ hotspots,
        st_distance (h.longitude, h.latitude)
          (s.geo_pose_longitude, s.geo_pose_latitude) ≤ 420 ∧
        p = ⟨s.robot_id, s.time_pst, s.is_on_delivery, h.label⟩) ∧
    ((∀ h ∈ hotspots,
        ¬ st_distance (h.longitude, h.latitude)
          (r.geo_pose_longitude, r.geo_pose_latitude) ≤ 420) →
      point_assignments st_distance hotspots [r] = []) := by
  constructor
  · unfold point_assignments
    rw [List.mem_dedup, List.mem_flatten]
    constructor
    · rintro ⟨rows, hrows, hp⟩
      obtain ⟨s, hs, rfl⟩ := List.mem_map.mp hrows
      obtain ⟨h, hh, rfl⟩ := List.mem_map.mp hp
      have hh' := List.mem_filter.mp hh
      exact ⟨s, hs, h, hh'.1, decide_eq_true_eq.mp hh'.2, rfl⟩
    · rintro ⟨s, hs, h, hh, hdist, rfl⟩
      refine ⟨_, List.mem_map_of_mem _ hs, ?_⟩
      exact List.mem_map_of_mem _
        (List.mem_filter.mpr ⟨hh, decide_eq_true_eq.mpr hdist⟩)
  · intro hfar
    unfold point_assignments
    have hfilter : (hotspots.filter fun h =>
        decide (st_distance (h.longitude, h.latitude)
          (r.geo_pose_longitude, r.geo_pose_latitude) ≤ 420)) = [] := by
      rw [List.filter_eq_nil_iff]
      intro h hh hd
      exact hfar h hh (decide_eq_true_eq.mp hd)
    simp [hfilter]

/-- Witness for C5's amended theorem: a sample 1000 away from the only
hotspot center produces no assignment rows. -/
theorem attribution_membership_w :
    point_assignments same_point_distance [⟨"A", 0, 0, 1⟩]
      [⟨1, 0, false, 100, 100⟩] = [] :=
  (attribution_membership same_point_distance [⟨"A", 0, 0, 1⟩]
      [⟨1, 0, false, 100, 100⟩] ⟨1, 0, false, "A"⟩ ⟨1, 0, false, 100, 100⟩).2
    (by decide)

end Maps
